import Mathlib

/-!
Verification of the order-fulfillment choreography of the
Cloud-Native-project repository: the inventory-service Stock Ledger
(src/inventory-service/main.py), the order-service Order Orchestrator
(src/order-service/main.py), and the notification-service Dispatcher
(src/notification-service/main.py), shallowly embedded in Lean 4.

Prices are modelled as exact rationals, stock quantities as integers.
The per-service in-process tables (products_db, orders_db, the Redis
notification list) are modelled as explicit values threaded through
the operations. An attempted publish on the notification channel is
modelled by a boolean flag saying whether the publish succeeds; the
code wraps every publish in a try/except that only logs, so the flag
can only influence which message is delivered, never the result.
-/

namespace CloudNative

/-- A product record of the inventory service (Product model and the
entries of products_db in src/inventory-service/main.py). -/
structure Product where
  product_id : String
  name : String
  price : Rat
  stock : Int
  category : String
deriving DecidableEq

/-- The products_db table: a keyed collection of product records.
Keys are the product_id fields; lookup finds the first record with
the given id, update replaces it in place, as a dict does. -/
abbrev ProductsDb := List Product

/-- Dict lookup products_db[product_id]: first record with the id. -/
def findProduct (db : ProductsDb) (pid : String) : Option Product :=
  db.find? (fun p => p.product_id == pid)

/-- Dict update products_db[product_id] = p for an existing key:
replace the first record carrying the id. -/
def setProduct : ProductsDb → String → Product → ProductsDb
  | [], _, _ => []
  | q :: rest, pid, p =>
      if q.product_id == pid then p :: rest else q :: setProduct rest pid p

/-- The initial products_db of src/inventory-service/main.py lines 62-91. -/
def initialProducts : ProductsDb :=
  [ ⟨"prod001", "Laptop", 999.99, 50, "Electronics"⟩,
    ⟨"prod002", "Mouse", 29.99, 100, "Electronics"⟩,
    ⟨"prod003", "Keyboard", 79.99, 75, "Electronics"⟩,
    ⟨"prod004", "NoteBook", 15, 1, "Books"⟩ ]

/-- A message published on the notifications channel by the inventory
service: the low_stock_alert and out_of_stock_alert payloads built in
update_stock (timestamps omitted). -/
inductive AlertMsg where
  | lowStock (product_id product_name : String) (current_stock : Int)
  | outOfStock (product_id product_name : String)
deriving DecidableEq

/-- Errors of PUT /products/(id)/stock: 404 unknown product,
400 insufficient stock. -/
inductive StockErr where
  | notFound
  | insufficientStock
deriving DecidableEq

/-- The success body returned by update_stock (updated_at omitted). -/
structure StockResponse where
  product_id : String
  previous_stock : Int
  new_stock : Int
deriving DecidableEq

instance {ε α : Type} [DecidableEq ε] [DecidableEq α] :
    DecidableEq (Except ε α) := fun a b =>
  match a, b with
  | .error e, .error f =>
      if h : e = f then isTrue (by rw [h]) else isFalse (by simp [h])
  | .error _, .ok _ => isFalse (by simp)
  | .ok _, .error _ => isFalse (by simp)
  | .ok x, .ok y =>
      if h : x = y then isTrue (by rw [h]) else isFalse (by simp [h])

/-- Full outcome of one update_stock call: the products table after
the call, the HTTP result, and the alert actually delivered on the
channel (none when nothing was emitted or the publish failed). -/
structure StockOutcome where
  db : ProductsDb
  result : Except StockErr StockResponse
  published : Option AlertMsg
deriving DecidableEq

/-- The alert chosen by update_stock from the post-mutation stock
value (src/inventory-service/main.py lines 144-176): low stock when
0 < new_stock <= 10, out of stock when new_stock == 0, else none. -/
def stockAlert (pid name : String) (new_stock : Int) : Option AlertMsg :=
  if new_stock ≤ 10 ∧ new_stock > 0 then
    some (.lowStock pid name new_stock)
  else if new_stock == 0 then
    some (.outOfStock pid name)
  else
    none

/-- PUT /products/(id)/stock (src/inventory-service/main.py lines
121-183). pubOk says whether the redis publish succeeds; the code
catches any publish exception and only logs, so pubOk decides only
whether the chosen alert is delivered. previous_stock is computed as
the updated stock minus the delta, exactly as the source does. -/
def update_stock (pubOk : Bool) (db : ProductsDb) (pid : String)
    (quantity : Int) : StockOutcome :=
  match findProduct db pid with
  | none => ⟨db, .error .notFound, none⟩
  | some product =>
      let new_stock := product.stock + quantity
      if new_stock < 0 then
        ⟨db, .error .insufficientStock, none⟩
      else
        let product2 := { product with stock := new_stock }
        let db2 := setProduct db pid product2
        let alert := stockAlert pid product2.name new_stock
        ⟨db2,
         .ok ⟨pid, product2.stock - quantity, product2.stock⟩,
         if pubOk then alert else none⟩

/- Basic lemmas about the keyed product table. -/

theorem findProduct_setProduct_self (db : ProductsDb) (pid : String)
    (p : Product) (hp : p.product_id = pid)
    (hmem : (findProduct db pid).isSome) :
    findProduct (setProduct db pid p) pid = some p := by
  induction db with
  | nil => simp [findProduct] at hmem
  | cons q rest ih =>
      by_cases hq : q.product_id = pid
      · simp [setProduct, findProduct, hq, hp]
      · have hq2 : (q.product_id == pid) = false := by
          simp [hq]
        simp only [setProduct, hq2, if_false]
        have hmem2 : (findProduct rest pid).isSome := by
          simpa [findProduct, List.find?, hq2] using hmem
        simp only [findProduct, List.find?, hq2] at *
        exact ih hmem2

theorem findProduct_setProduct_other (db : ProductsDb) (pid pid2 : String)
    (p : Product) (hp : p.product_id = pid) (hne : pid2 ≠ pid) :
    findProduct (setProduct db pid p) pid2 = findProduct db pid2 := by
  induction db with
  | nil => rfl
  | cons q rest ih =>
      by_cases hq : q.product_id = pid
      · have hps : pid ≠ pid2 := fun h => hne h.symm
        have hp2 : (p.product_id == pid2) = false := by simp [hp, hps]
        have hq2 : (q.product_id == pid2) = false := by simp [hq, hps]
        have hpp : (pid == pid2) = false := by simp [hps]
        simp [setProduct, hq, findProduct, List.find?, hp2, hq2, hpp]
      · have hq2 : (q.product_id == pid) = false := by simp [hq]
        simp only [setProduct, hq2, if_false, findProduct, List.find?]
        cases hqq : (q.product_id == pid2)
        · exact ih
        · rfl

theorem mem_setProduct (pid : String) (p r : Product) :
    ∀ db : ProductsDb, r ∈ setProduct db pid p → r ∈ db ∨ r = p := by
  intro db
  induction db with
  | nil => intro hr; simp [setProduct] at hr
  | cons q rest ih =>
      intro hr
      by_cases hq : q.product_id = pid
      · have hq2 : (q.product_id == pid) = true := by simp [hq]
        simp only [setProduct, hq2, if_true, List.mem_cons] at hr
        rcases hr with hr | hr
        · right; exact hr
        · left; exact List.mem_cons_of_mem _ hr
      · have hq2 : (q.product_id == pid) = false := by simp [hq]
        have hr2 : r ∈ q :: setProduct rest pid p := by
          simpa only [setProduct, hq2, if_false] using hr
        rcases List.mem_cons.mp hr2 with hr3 | hr3
        · left; simp [hr3]
        · rcases ih hr3 with h | h
          · left; exact List.mem_cons_of_mem _ h
          · right; exact h

/- Characterizations of the three update_stock branches. -/

theorem update_stock_notFound (pubOk : Bool) (db : ProductsDb)
    (pid : String) (q : Int) (h : findProduct db pid = none) :
    update_stock pubOk db pid q = ⟨db, .error .notFound, none⟩ := by
  simp [update_stock, h]

theorem update_stock_insufficient (pubOk : Bool) (db : ProductsDb)
    (pid : String) (q : Int) (p : Product)
    (h : findProduct db pid = some p) (h2 : p.stock + q < 0) :
    update_stock pubOk db pid q = ⟨db, .error .insufficientStock, none⟩ := by
  simp [update_stock, h, h2]

theorem update_stock_found (pubOk : Bool) (db : ProductsDb)
    (pid : String) (q : Int) (p : Product)
    (h : findProduct db pid = some p) (h2 : ¬ p.stock + q < 0) :
    update_stock pubOk db pid q =
      ⟨setProduct db pid { p with stock := p.stock + q },
       .ok ⟨pid, p.stock + q - q, p.stock + q⟩,
       if pubOk then stockAlert pid p.name (p.stock + q) else none⟩ := by
  simp [update_stock, h, h2]

theorem findProduct_pid (db : ProductsDb) (pid : String) (p : Product)
    (h : findProduct db pid = some p) : p.product_id = pid := by
  have hfind := List.find?_some h
  simpa using hfind

/-- C1. The stock-delta operation never commits a negative stock: when
the requested delta would drive the stock of the addressed product
below zero it answers InsufficientStock and leaves the table exactly
as it was; otherwise it commits stock + delta, reports the old and new
stock, and touches no other product. In consequence every table whose
stocks are all non-negative keeps that property across any call. -/
theorem applyStockDelta_never_negative (pubOk : Bool) (db : ProductsDb)
    (pid : String) (q : Int) :
    (∀ p, findProduct db pid = some p → p.stock + q < 0 →
        (update_stock pubOk db pid q).result = .error .insufficientStock ∧
        (update_stock pubOk db pid q).db = db) ∧
    (∀ p, findProduct db pid = some p → 0 ≤ p.stock + q →
        (update_stock pubOk db pid q).result =
          .ok ⟨pid, p.stock, p.stock + q⟩ ∧
        findProduct (update_stock pubOk db pid q).db pid =
          some { p with stock := p.stock + q } ∧
        (∀ pid2, pid2 ≠ pid →
          findProduct (update_stock pubOk db pid q).db pid2 =
            findProduct db pid2)) ∧
    ((∀ r ∈ db, 0 ≤ r.stock) →
        ∀ r ∈ (update_stock pubOk db pid q).db, 0 ≤ r.stock) := by
  refine ⟨?_, ?_, ?_⟩
  · intro p h hneg
    rw [update_stock_insufficient pubOk db pid q p h hneg]
    exact ⟨rfl, rfl⟩
  · intro p h h2
    have hnneg : ¬ p.stock + q < 0 := not_lt.mpr h2
    have hpid : p.product_id = pid := findProduct_pid db pid p h
    rw [update_stock_found pubOk db pid q p h hnneg]
    refine ⟨?_, ?_, ?_⟩
    · have : p.stock + q - q = p.stock := by omega
      simp [this]
    · exact findProduct_setProduct_self db pid _ hpid (by simp [h])
    · intro pid2 hne
      exact findProduct_setProduct_other db pid pid2 _ hpid hne
  · intro hnn r hr
    cases hf : findProduct db pid with
    | none =>
        rw [update_stock_notFound pubOk db pid q hf] at hr
        exact hnn r hr
    | some p =>
        by_cases hneg : p.stock + q < 0
        · rw [update_stock_insufficient pubOk db pid q p hf hneg] at hr
          exact hnn r hr
        · rw [update_stock_found pubOk db pid q p hf hneg] at hr
          rcases mem_setProduct pid _ r db hr with hmem | hEq
          · exact hnn r hmem
          · rw [hEq]
            simpa using not_lt.mp hneg

/-- C1 witness: the theorem applied at the initial table, product
prod004 (stock 1) with delta -1: the delta succeeds with new stock 0
and a table whose stocks all stay non-negative; delta -2 on the same
product is rejected with the table unchanged. -/
theorem applyStockDelta_never_negative_witness :
    ((update_stock true initialProducts "prod004" (-2)).result =
        .error .insufficientStock ∧
      (update_stock true initialProducts "prod004" (-2)).db =
        initialProducts) ∧
    ((update_stock true initialProducts "prod004" (-1)).result =
        .ok ⟨"prod004", 1, 0⟩ ∧
      findProduct (update_stock true initialProducts "prod004" (-1)).db
          "prod004" = some ⟨"prod004", "NoteBook", 15, 0, "Books"⟩ ∧
      (∀ pid2, pid2 ≠ "prod004" →
        findProduct (update_stock true initialProducts "prod004" (-1)).db
            pid2 = findProduct initialProducts pid2)) := by
  constructor
  · exact (applyStockDelta_never_negative true initialProducts "prod004"
      (-2)).1 ⟨"prod004", "NoteBook", 15, 1, "Books"⟩ (by decide) (by decide)
  · exact (applyStockDelta_never_negative true initialProducts "prod004"
      (-1)).2.1 ⟨"prod004", "NoteBook", 15, 1, "Books"⟩ (by decide) (by decide)

/-- C6. On every successful delta application the delivered alert is
exactly one of none, low stock, out of stock, classified solely from
the post-delta stock value: low stock exactly when it lies in (0, 10],
out of stock exactly when it is 0, and nothing exactly when it
exceeds 10. -/
theorem alert_classification (db : ProductsDb) (pid : String) (q : Int)
    (p : Product) (h : findProduct db pid = some p)
    (h2 : 0 ≤ p.stock + q) :
    ((update_stock true db pid q).published =
        some (.lowStock pid p.name (p.stock + q)) ↔
      0 < p.stock + q ∧ p.stock + q ≤ 10) ∧
    ((update_stock true db pid q).published =
        some (.outOfStock pid p.name) ↔ p.stock + q = 0) ∧
    ((update_stock true db pid q).published = none ↔
      10 < p.stock + q) := by
  have hpub : (update_stock true db pid q).published =
      stockAlert pid p.name (p.stock + q) := by
    rw [update_stock_found true db pid q p h (not_lt.mpr h2)]
    rfl
  rw [hpub]
  by_cases h0 : p.stock + q = 0
  · have hA : stockAlert pid p.name (p.stock + q) =
        some (.outOfStock pid p.name) := by
      unfold stockAlert
      rw [if_neg (by omega), if_pos (by simp [h0])]
    rw [hA]
    refine ⟨?_, ?_, ?_⟩
    · simp only [Option.some.injEq]
      constructor
      · intro hfalse; exact absurd hfalse (by simp)
      · intro hc; omega
    · simp [h0]
    · constructor
      · intro hfalse; exact absurd hfalse (by simp)
      · intro hc; omega
  · by_cases h10 : p.stock + q ≤ 10
    · have h0lt : 0 < p.stock + q := by omega
      have hA : stockAlert pid p.name (p.stock + q) =
          some (.lowStock pid p.name (p.stock + q)) := by
        unfold stockAlert
        rw [if_pos ⟨h10, h0lt⟩]
      rw [hA]
      refine ⟨?_, ?_, ?_⟩
      · simp [h0lt, h10]
      · simp only [Option.some.injEq]
        constructor
        · intro hfalse; exact absurd hfalse (by simp)
        · intro hc; omega
      · constructor
        · intro hfalse; exact absurd hfalse (by simp)
        · intro hc; omega
    · have h10lt : 10 < p.stock + q := by omega
      have hA : stockAlert pid p.name (p.stock + q) = none := by
        unfold stockAlert
        rw [if_neg (by omega), if_neg (by simp; omega)]
      rw [hA]
      refine ⟨?_, ?_, ?_⟩
      · constructor
        · intro hfalse; exact absurd hfalse (by simp)
        · intro hc; omega
      · constructor
        · intro hfalse; exact absurd hfalse (by simp)
        · intro hc; omega
      · simp [h10lt]

/-- C6 witness: the theorem applied at the initial table, product
prod004 (stock 1) with delta -1 (post-delta stock 0): the delivered
alert is the out-of-stock alert and not the low-stock alert. -/
theorem alert_classification_witness :
    ((update_stock true initialProducts "prod004" (-1)).published =
        some (.lowStock "prod004" "NoteBook" ((1 : Int) + -1)) ↔
      0 < (1 : Int) + -1 ∧ (1 : Int) + -1 ≤ 10) ∧
    ((update_stock true initialProducts "prod004" (-1)).published =
        some (.outOfStock "prod004" "NoteBook") ↔ (1 : Int) + -1 = 0) ∧
    ((update_stock true initialProducts "prod004" (-1)).published =
        none ↔ 10 < (1 : Int) + -1) :=
  alert_classification initialProducts "prod004" (-1)
    ⟨"prod004", "NoteBook", 15, 1, "Books"⟩ (by decide) (by decide)

/-- A requested line item (OrderItem model,
src/order-service/main.py lines 39-41). No constraint on the quantity
field is declared in the source. -/
structure OrderItem where
  product_id : String
  quantity : Int
deriving DecidableEq

/-- An order record (Order model, src/order-service/main.py lines
47-53; created_at omitted). -/
structure Order where
  order_id : String
  user_id : String
  items : List OrderItem
  status : String
  total_amount : Rat
deriving DecidableEq

/-- The orders_db table of the order service: order_id to order. -/
abbrev OrdersDb := List (String × Order)

/-- The errors create_order can raise (src/order-service/main.py
lines 93-143), tagged with the offending product id. -/
inductive OrderErr where
  | productNotFound (pid : String)
  | insufficientStock (pid : String)
  | inventoryUpdateFailed (pid : String)
  | priceFetchFailed (pid : String)
deriving DecidableEq

/-- The HTTP status attached to each create_order error in the
source: 400 for the availability-pass failures and the price-fetch
failure, 500 for a failed inventory update. -/
def orderErrStatus : OrderErr → Nat
  | .productNotFound _ => 400
  | .insufficientStock _ => 400
  | .inventoryUpdateFailed _ => 500
  | .priceFetchFailed _ => 400

/-- The client-input validation errors of the availability pass. -/
def validationError : OrderErr → Bool
  | .productNotFound _ => true
  | .insufficientStock _ => true
  | _ => false

/-- The order_confirmation payload published on the notifications
channel after the order is stored (timestamp omitted). -/
structure ConfirmMsg where
  order_id : String
  user_id : String
  total_amount : Rat
deriving DecidableEq

/-- Step 1 of create_order (src/order-service/main.py lines 89-104):
for each item in turn fetch the product and compare its stock with
the requested quantity; the first failure aborts the pass. -/
def checkItems (db : ProductsDb) : List OrderItem → Option OrderErr
  | [] => none
  | item :: rest =>
      match findProduct db item.product_id with
      | none => some (.productNotFound item.product_id)
      | some p =>
          if p.stock < item.quantity then
            some (.insufficientStock item.product_id)
          else checkItems db rest

/-- Step 2 of create_order (src/order-service/main.py lines 110-119):
for each item in turn call the stock-delta operation with the negated
quantity; a non-200 answer aborts the pass with a 500-class error.
Returns the threaded products table, the trace of delta calls that
succeeded, and the error if any. -/
def applyDeltas (db : ProductsDb) :
    List OrderItem → ProductsDb × List (String × Int) × Option OrderErr
  | [] => (db, [], none)
  | item :: rest =>
      let o := update_stock true db item.product_id (-item.quantity)
      match o.result with
      | .error _ => (o.db, [], some (.inventoryUpdateFailed item.product_id))
      | .ok _ =>
          let r := applyDeltas o.db rest
          (r.1, (item.product_id, -item.quantity) :: r.2.1, r.2.2)

/-- Step 3 of create_order (src/order-service/main.py lines 125-138):
re-read each product and accumulate quantity times price into the
running total, exactly as the source accumulates total_amount. -/
def computeTotal (db : ProductsDb) : List OrderItem → Rat → Except OrderErr Rat
  | [], acc => .ok acc
  | item :: rest, acc =>
      match findProduct db item.product_id with
      | none => .error (.priceFetchFailed item.product_id)
      | some p => computeTotal db rest (acc + (item.quantity : Rat) * p.price)

/-- Full outcome of one create_order call: both tables after the
call, the trace of successful stock-delta calls, the HTTP result, and
the confirmation message actually delivered on the channel. -/
structure OrderOutcome where
  db : ProductsDb
  ordersDb : OrdersDb
  deltaCalls : List (String × Int)
  result : Except OrderErr Order
  confirmPublished : Option ConfirmMsg
deriving DecidableEq

/-- POST /orders (src/order-service/main.py lines 72-177): the
availability pass, the mutation pass, the price re-read pass, then
construction and storage of the confirmed order and the
fire-and-forget confirmation publish. pubOk says whether that publish
succeeds; the code catches a publish failure and only logs it. -/
def create_order (pubOk : Bool) (db : ProductsDb) (odb : OrdersDb)
    (order_id user_id : String) (items : List OrderItem) : OrderOutcome :=
  match checkItems db items with
  | some e => ⟨db, odb, [], .error e, none⟩
  | none =>
      let m := applyDeltas db items
      match m.2.2 with
      | some e => ⟨m.1, odb, m.2.1, .error e, none⟩
      | none =>
          match computeTotal m.1 items 0 with
          | .error e => ⟨m.1, odb, m.2.1, .error e, none⟩
          | .ok total =>
              let order : Order := ⟨order_id, user_id, items, "confirmed", total⟩
              ⟨m.1, odb ++ [(order_id, order)], m.2.1, .ok order,
               if pubOk then some ⟨order_id, user_id, total⟩ else none⟩

/- Which errors each pass can produce. -/

theorem checkItems_validation (db : ProductsDb) :
    ∀ (items : List OrderItem) (e : OrderErr),
      checkItems db items = some e → validationError e = true := by
  intro items
  induction items with
  | nil => intro e h; simp [checkItems] at h
  | cons item rest ih =>
      intro e h
      cases hf : findProduct db item.product_id with
      | none =>
          simp only [checkItems, hf] at h
          obtain rfl : e = .productNotFound item.product_id := by
            simpa using h.symm
          rfl
      | some p =>
          simp only [checkItems, hf] at h
          by_cases hq : p.stock < item.quantity
          · rw [if_pos hq] at h
            obtain rfl : e = .insufficientStock item.product_id := by
              simpa using h.symm
            rfl
          · rw [if_neg hq] at h
            exact ih e h

theorem applyDeltas_err :
    ∀ (items : List OrderItem) (db : ProductsDb) (e : OrderErr),
      (applyDeltas db items).2.2 = some e →
      ∃ pid, e = .inventoryUpdateFailed pid := by
  intro items
  induction items with
  | nil => intro db e h; simp [applyDeltas] at h
  | cons item rest ih =>
      intro db e h
      simp only [applyDeltas] at h
      cases hr : (update_stock true db item.product_id (-item.quantity)).result
        with
      | error err =>
          rw [hr] at h
          obtain rfl : e = .inventoryUpdateFailed item.product_id := by
            simpa using h.symm
          exact ⟨item.product_id, rfl⟩
      | ok resp =>
          rw [hr] at h
          exact ih _ e h

theorem computeTotal_err (db : ProductsDb) :
    ∀ (items : List OrderItem) (acc : Rat) (e : OrderErr),
      computeTotal db items acc = .error e →
      ∃ pid, e = .priceFetchFailed pid := by
  intro items
  induction items with
  | nil => intro acc e h; simp [computeTotal] at h
  | cons item rest ih =>
      intro acc e h
      cases hf : findProduct db item.product_id with
      | none =>
          simp only [computeTotal, hf] at h
          obtain rfl : e = .priceFetchFailed item.product_id := by
            simpa using h.symm
          exact ⟨item.product_id, rfl⟩
      | some p =>
          simp only [computeTotal, hf] at h
          exact ih _ e h

/-- C2. Whenever create_order fails with one of the two validation
errors (unknown product or insufficient stock from the availability
pass), no stock-delta call has been issued and both tables are
exactly as before the call. -/
theorem validation_failure_no_mutation (pubOk : Bool) (db : ProductsDb)
    (odb : OrdersDb) (oid uid : String) (items : List OrderItem)
    (e : OrderErr)
    (h : (create_order pubOk db odb oid uid items).result = .error e)
    (hv : validationError e = true) :
    (create_order pubOk db odb oid uid items).deltaCalls = [] ∧
    (create_order pubOk db odb oid uid items).db = db ∧
    (create_order pubOk db odb oid uid items).ordersDb = odb := by
  cases hc : checkItems db items with
  | some e0 => simp [create_order, hc]
  | none =>
      cases hm : (applyDeltas db items).2.2 with
      | some e0 =>
          simp only [create_order, hc, hm] at h
          obtain rfl : e = e0 := by simpa using h.symm
          obtain ⟨pid, rfl⟩ := applyDeltas_err items db _ hm
          simp [validationError] at hv
      | none =>
          cases ht : computeTotal (applyDeltas db items).1 items 0 with
          | error e0 =>
              simp only [create_order, hc, hm, ht] at h
              obtain rfl : e = e0 := by simpa using h.symm
              obtain ⟨pid, rfl⟩ := computeTotal_err _ items 0 _ ht
              simp [validationError] at hv
          | ok t =>
              simp only [create_order, hc, hm, ht] at h
              exact absurd h (by simp)

/-- C2 witness: the theorem applied to an order for user u1 naming
the unknown product prod999: the call fails with the
product-not-found validation error, makes no delta call and leaves
both tables untouched. -/
theorem validation_failure_no_mutation_witness :
    (create_order true initialProducts [] "o1" "u1"
        [⟨"prod999", 1⟩]).deltaCalls = [] ∧
    (create_order true initialProducts [] "o1" "u1"
        [⟨"prod999", 1⟩]).db = initialProducts ∧
    (create_order true initialProducts [] "o1" "u1"
        [⟨"prod999", 1⟩]).ordersDb = [] :=
  validation_failure_no_mutation true initialProducts [] "o1" "u1"
    [⟨"prod999", 1⟩] (.productNotFound "prod999") (by decide) (by decide)

/-- The specified order total: the sum over the line items of
quantity times the unit price the ledger reports for the product
(0 for a product the ledger does not know). Stated from the spec
wording to compare with the total create_order computes. -/
def specOrderTotal (db : ProductsDb) (items : List OrderItem) : Rat :=
  (items.map (fun it =>
    (it.quantity : Rat) *
      (((findProduct db it.product_id).map Product.price).getD 0))).sum

theorem computeTotal_ok (db : ProductsDb) :
    ∀ (items : List OrderItem) (acc t : Rat),
      computeTotal db items acc = .ok t →
      t = acc + specOrderTotal db items := by
  intro items
  induction items with
  | nil =>
      intro acc t h
      simp only [computeTotal, Except.ok.injEq] at h
      simp [specOrderTotal, h]
  | cons item rest ih =>
      intro acc t h
      cases hf : findProduct db item.product_id with
      | none =>
          simp only [computeTotal, hf] at h
          exact absurd h (by simp)
      | some p =>
          simp only [computeTotal, hf] at h
          have ht := ih _ t h
          rw [ht]
          simp [specOrderTotal, hf]
          ring

/-- C3. A successful create_order returns and stores an order whose
status is confirmed and whose total amount is the sum of quantity
times unit price over the line items, the prices being those the
ledger reports after the stock deltas were applied (the table the
second read pass sees). -/
theorem order_success_total (pubOk : Bool) (db : ProductsDb)
    (odb : OrdersDb) (oid uid : String) (items : List OrderItem)
    (order : Order)
    (h : (create_order pubOk db odb oid uid items).result = .ok order) :
    order.status = "confirmed" ∧
    order.total_amount =
      specOrderTotal (create_order pubOk db odb oid uid items).db items ∧
    (create_order pubOk db odb oid uid items).ordersDb =
      odb ++ [(oid, order)] := by
  cases hc : checkItems db items with
  | some e =>
      simp only [create_order, hc] at h
      exact absurd h (by simp)
  | none =>
      cases hm : (applyDeltas db items).2.2 with
      | some e =>
          simp only [create_order, hc, hm] at h
          exact absurd h (by simp)
      | none =>
          cases ht : computeTotal (applyDeltas db items).1 items 0 with
          | error e =>
              simp only [create_order, hc, hm, ht] at h
              exact absurd h (by simp)
          | ok t =>
              simp only [create_order, hc, hm, ht, Except.ok.injEq] at h
              have htot := computeTotal_ok _ items 0 t ht
              simp only [create_order, hc, hm, ht]
              refine ⟨?_, ?_, ?_⟩
              · rw [← h]
              · rw [← h]
                simpa using htot
              · rw [← h]

/-- C3 witness: the theorem applied to an order of two Laptops
(prod001, price 999.99): the stored order is confirmed with total
1999.98 computed from the post-delta table. -/
theorem order_success_total_witness :
    (⟨"o1", "u1", [⟨"prod001", 2⟩], "confirmed", 1999.98⟩ :
        Order).status = "confirmed" ∧
    (⟨"o1", "u1", [⟨"prod001", 2⟩], "confirmed", 1999.98⟩ :
        Order).total_amount =
      specOrderTotal
        (create_order true initialProducts [] "o1" "u1"
          [⟨"prod001", 2⟩]).db [⟨"prod001", 2⟩] ∧
    (create_order true initialProducts [] "o1" "u1"
        [⟨"prod001", 2⟩]).ordersDb =
      [] ++ [("o1", ⟨"o1", "u1", [⟨"prod001", 2⟩], "confirmed", 1999.98⟩)] :=
  order_success_total true initialProducts [] "o1" "u1" [⟨"prod001", 2⟩]
    ⟨"o1", "u1", [⟨"prod001", 2⟩], "confirmed", 1999.98⟩ (by
      norm_num [create_order, checkItems, applyDeltas, computeTotal,
        update_stock, findProduct, setProduct, stockAlert,
        initialProducts, List.find?])

/-- C7. A publish failure on the notification channel is invisible to
the synchronous caller: the stock-delta operation commits the same
table and returns the same result whether or not its alert publish
succeeds, and create_order commits the same tables, the same stored
order and the same result whether or not its confirmation publish
succeeds. -/
theorem publish_failure_invisible (pubOk : Bool) (db : ProductsDb)
    (pid : String) (q : Int) (odb : OrdersDb) (oid uid : String)
    (items : List OrderItem) :
    ((update_stock pubOk db pid q).db = (update_stock true db pid q).db ∧
     (update_stock pubOk db pid q).result =
       (update_stock true db pid q).result) ∧
    ((create_order pubOk db odb oid uid items).db =
       (create_order true db odb oid uid items).db ∧
     (create_order pubOk db odb oid uid items).ordersDb =
       (create_order true db odb oid uid items).ordersDb ∧
     (create_order pubOk db odb oid uid items).result =
       (create_order true db odb oid uid items).result ∧
     (create_order pubOk db odb oid uid items).deltaCalls =
       (create_order true db odb oid uid items).deltaCalls) := by
  constructor
  · cases hf : findProduct db pid with
    | none =>
        rw [update_stock_notFound pubOk db pid q hf,
          update_stock_notFound true db pid q hf]
        exact ⟨rfl, rfl⟩
    | some p =>
        by_cases hneg : p.stock + q < 0
        · rw [update_stock_insufficient pubOk db pid q p hf hneg,
            update_stock_insufficient true db pid q p hf hneg]
          exact ⟨rfl, rfl⟩
        · rw [update_stock_found pubOk db pid q p hf hneg,
            update_stock_found true db pid q p hf hneg]
          exact ⟨rfl, rfl⟩
  · cases hc : checkItems db items with
    | some e => simp [create_order, hc]
    | none =>
        cases hm : (applyDeltas db items).2.2 with
        | some e => simp [create_order, hc, hm]
        | none =>
            cases ht : computeTotal (applyDeltas db items).1 items 0 with
            | error e => simp [create_order, hc, hm, ht]
            | ok t => simp [create_order, hc, hm, ht]

/-- Replay of a trace of stock-delta calls against a table. -/
def replayDeltas : ProductsDb → List (String × Int) → ProductsDb
  | db, [] => db
  | db, c :: rest => replayDeltas (update_stock true db c.1 c.2).db rest

theorem update_stock_error_db (pubOk : Bool) (db : ProductsDb)
    (pid : String) (q : Int) (e : StockErr)
    (h : (update_stock pubOk db pid q).result = .error e) :
    (update_stock pubOk db pid q).db = db := by
  cases hf : findProduct db pid with
  | none => rw [update_stock_notFound pubOk db pid q hf]
  | some p =>
      by_cases hneg : p.stock + q < 0
      · rw [update_stock_insufficient pubOk db pid q p hf hneg]
      · rw [update_stock_found pubOk db pid q p hf hneg] at h
        exact absurd h (by simp)

theorem applyDeltas_replay :
    ∀ (items : List OrderItem) (db : ProductsDb),
      (applyDeltas db items).1 =
        replayDeltas db (applyDeltas db items).2.1 := by
  intro items
  induction items with
  | nil => intro db; rfl
  | cons item rest ih =>
      intro db
      simp only [applyDeltas]
      cases hr : (update_stock true db item.product_id
          (-item.quantity)).result with
      | error err =>
          simp [replayDeltas,
            update_stock_error_db true db item.product_id
              (-item.quantity) err hr]
      | ok resp =>
          simpa [replayDeltas] using
            ih (update_stock true db item.product_id (-item.quantity)).db

theorem applyDeltas_trace_shape :
    ∀ (items : List OrderItem) (db : ProductsDb),
      ∃ k ≤ items.length,
        (applyDeltas db items).2.1 =
          (items.take k).map (fun it => (it.product_id, -it.quantity)) ∧
        ((applyDeltas db items).2.2.isSome → k < items.length) := by
  intro items
  induction items with
  | nil =>
      intro db
      refine ⟨0, Nat.le_refl 0, rfl, ?_⟩
      intro hs
      simp [applyDeltas] at hs
  | cons item rest ih =>
      intro db
      cases hr : (update_stock true db item.product_id
          (-item.quantity)).result with
      | error err =>
          refine ⟨0, Nat.zero_le _, ?_, ?_⟩
          · simp [applyDeltas, hr]
          · intro _
            simp
      | ok resp =>
          obtain ⟨k, hk, htr, himp⟩ :=
            ih (update_stock true db item.product_id (-item.quantity)).db
          refine ⟨k + 1, by simpa using hk, ?_, ?_⟩
          · simp [applyDeltas, hr, htr]
          · intro hs
            have : k < rest.length := by
              apply himp
              simpa [applyDeltas, hr] using hs
            simpa using this

/-- C8. When the mutation pass of create_order fails after some stock
deltas have already been applied, the call surfaces the 500-class
inventory-update error, stores no order, and does not roll back: the
final products table is exactly the original table with the traced
(successful) delta calls replayed, the trace being the longest prefix
of the requested items whose deltas succeeded. -/
theorem partial_failure_no_rollback (pubOk : Bool) (db : ProductsDb)
    (odb : OrdersDb) (oid uid : String) (items : List OrderItem)
    (pid : String)
    (h : (create_order pubOk db odb oid uid items).result =
      .error (.inventoryUpdateFailed pid)) :
    (create_order pubOk db odb oid uid items).ordersDb = odb ∧
    orderErrStatus (.inventoryUpdateFailed pid) = 500 ∧
    (create_order pubOk db odb oid uid items).db =
      replayDeltas db (create_order pubOk db odb oid uid items).deltaCalls ∧
    ∃ k < items.length,
      (create_order pubOk db odb oid uid items).deltaCalls =
        (items.take k).map (fun it => (it.product_id, -it.quantity)) := by
  cases hc : checkItems db items with
  | some e =>
      simp only [create_order, hc] at h
      obtain rfl : e = .inventoryUpdateFailed pid := by simpa using h
      exact absurd (checkItems_validation db items _ hc)
        (by simp [validationError])
  | none =>
      cases hm : (applyDeltas db items).2.2 with
      | some e =>
          have hco : create_order pubOk db odb oid uid items =
              ⟨(applyDeltas db items).1, odb, (applyDeltas db items).2.1,
                .error e, none⟩ := by
            simp only [create_order, hc]
            rw [hm]
          rw [hco]
          refine ⟨rfl, rfl, applyDeltas_replay items db, ?_⟩
          obtain ⟨k, hk, htr, himp⟩ := applyDeltas_trace_shape items db
          exact ⟨k, himp (by simp [hm]), htr⟩
      | none =>
          cases ht : computeTotal (applyDeltas db items).1 items 0 with
          | error e =>
              simp only [create_order, hc, hm, ht] at h
              obtain rfl : e = .inventoryUpdateFailed pid := by simpa using h
              obtain ⟨pid2, hpid2⟩ := computeTotal_err _ items 0 _ ht
              exact absurd hpid2 (by simp)
          | ok t =>
              simp only [create_order, hc, hm, ht] at h
              exact absurd h (by simp)

/-- C8 witness: the theorem applied to an order naming prod004
(stock 1) twice with quantity 1 each: both items pass the
availability check against the same stale read, the first delta
drives the stock to 0, the second is rejected, the call fails with
the 500-class error, no order is stored, and the table keeps the
first decrement (prod004 left at stock 0, not rolled back to 1). -/
theorem partial_failure_no_rollback_witness :
    ((create_order true initialProducts [] "o1" "u1"
        [⟨"prod004", 1⟩, ⟨"prod004", 1⟩]).ordersDb = [] ∧
      orderErrStatus (.inventoryUpdateFailed "prod004") = 500 ∧
      (create_order true initialProducts [] "o1" "u1"
          [⟨"prod004", 1⟩, ⟨"prod004", 1⟩]).db =
        replayDeltas initialProducts
          (create_order true initialProducts [] "o1" "u1"
            [⟨"prod004", 1⟩, ⟨"prod004", 1⟩]).deltaCalls ∧
      ∃ k < ([⟨"prod004", 1⟩, ⟨"prod004", 1⟩] : List OrderItem).length,
        (create_order true initialProducts [] "o1" "u1"
            [⟨"prod004", 1⟩, ⟨"prod004", 1⟩]).deltaCalls =
          (([⟨"prod004", 1⟩, ⟨"prod004", 1⟩] : List OrderItem).take k).map
            (fun it => (it.product_id, -it.quantity))) ∧
    findProduct (create_order true initialProducts [] "o1" "u1"
        [⟨"prod004", 1⟩, ⟨"prod004", 1⟩]).db "prod004" =
      some ⟨"prod004", "NoteBook", 15, 0, "Books"⟩ :=
  ⟨partial_failure_no_rollback true initialProducts [] "o1" "u1"
      [⟨"prod004", 1⟩, ⟨"prod004", 1⟩] "prod004" (by decide),
   by decide⟩

/-- C5 counterexample: create_order accepts a request with an empty
items list — it returns a confirmed order with total 0 and stores
it — and a request with the negative quantity -5 for prod004 passes
the availability check and mutates stock (the delta call +5 raises
the stock from 1 to 6), contradicting the claim that such requests
are rejected with no persisted order and no stock mutation. -/
theorem item_validation_counterexample :
    (create_order true initialProducts [] "o1" "u1" []).result =
      .ok ⟨"o1", "u1", [], "confirmed", 0⟩ ∧
    (create_order true initialProducts [] "o1" "u1" []).ordersDb =
      [("o1", ⟨"o1", "u1", [], "confirmed", 0⟩)] ∧
    (create_order true initialProducts [] "o2" "u1"
        [⟨"prod004", -5⟩]).deltaCalls = [("prod004", 5)] ∧
    findProduct (create_order true initialProducts [] "o2" "u1"
        [⟨"prod004", -5⟩]).db "prod004" =
      some ⟨"prod004", "NoteBook", 15, 6, "Books"⟩ := by
  refine ⟨rfl, rfl, ?_, ?_⟩ <;> decide

/-- C5 (amended). create_order performs no validation of the item
list itself: an empty items list is accepted outright, yielding a
stored confirmed order with total 0, no delta call and an untouched
products table; and for any existing product with non-negative
stock, a zero or negative requested quantity passes the availability
check. -/
theorem createOrder_no_item_validation (pubOk : Bool) (db : ProductsDb)
    (odb : OrdersDb) (oid uid : String) :
    (create_order pubOk db odb oid uid []).result =
      .ok ⟨oid, uid, [], "confirmed", 0⟩ ∧
    (create_order pubOk db odb oid uid []).deltaCalls = [] ∧
    (create_order pubOk db odb oid uid []).db = db ∧
    (create_order pubOk db odb oid uid []).ordersDb =
      odb ++ [(oid, ⟨oid, uid, [], "confirmed", 0⟩)] ∧
    (∀ (it : OrderItem) (rest : List OrderItem) (p : Product),
      findProduct db it.product_id = some p → 0 ≤ p.stock →
      it.quantity ≤ 0 →
      checkItems db (it :: rest) = checkItems db rest) := by
  refine ⟨rfl, rfl, rfl, rfl, ?_⟩
  intro it rest p hf h0 hq
  have hns : ¬ p.stock < it.quantity := by omega
  simp [checkItems, hf, hns]

/-- C5 witness: the theorem applied at the initial table; for the
concrete item prod004 with quantity -5 the availability check lets
the non-positive quantity through. -/
theorem createOrder_no_item_validation_witness :
    checkItems initialProducts [⟨"prod004", -5⟩] =
      checkItems initialProducts [] :=
  (createOrder_no_item_validation true initialProducts [] "o1"
      "u1").2.2.2.2
    ⟨"prod004", -5⟩ [] ⟨"prod004", "NoteBook", 15, 1, "Books"⟩
    (by decide) (by decide) (by decide)

/-- A notification as persisted in the stored list
(Notification model, src/notification-service/main.py lines 67-73;
timestamp omitted). -/
structure StoredNotif where
  notification_id : String
  type : String
  message : String
  recipient : String
  status : String
deriving DecidableEq

/-- create_notification (src/notification-service/main.py lines
122-132): the fresh uuid is supplied by the caller here; status is
always sent. -/
def create_notification
    (freshId notification_type message recipient : String) : StoredNotif :=
  ⟨freshId, notification_type, message, recipient, "sent"⟩

/-- The stock-alert branches of process_notification
(src/notification-service/main.py lines 173-218): classify the
message by its type tag, render the text, and prepend (lpush) the
created notification to the stored list. The order_confirmation
branch renders floating-point money formatting and is outside the
claims under verification. -/
def process_notification (msg : AlertMsg) (freshId : String)
    (store : List StoredNotif) : List StoredNotif :=
  match msg with
  | .lowStock product_id product_name current_stock =>
      create_notification freshId "low_stock_alert"
        ("Low stock alert: " ++ product_name ++ " (" ++ product_id ++
          ") - Only " ++ toString current_stock ++ " units remaining")
        "admin@company.com" :: store
  | .outOfStock product_id product_name =>
      create_notification freshId "out_of_stock_alert"
        ("Out of stock alert: " ++ product_name ++ " (" ++ product_id ++
          ") - No units remaining")
        "admin@company.com" :: store

/-- C9. End-to-end round trip of a low-stock alert: whenever the
stock-delta operation leaves a product with stock in (0, 10] and so
publishes a low_stock_alert, dispatching that very message persists a
notification whose text is exactly
Low stock alert: name (id) - Only n units remaining
instantiated with the product name, the product id and the remaining
stock carried in the message, whose type is low_stock_alert and whose
recipient is the fixed admin address. -/
theorem low_stock_alert_roundtrip (db : ProductsDb) (pid : String)
    (q : Int) (p : Product) (freshId : String)
    (store : List StoredNotif)
    (h : findProduct db pid = some p) (h1 : 0 < p.stock + q)
    (h2 : p.stock + q ≤ 10) :
    ∃ msg, (update_stock true db pid q).published = some msg ∧
      process_notification msg freshId store =
        ⟨freshId, "low_stock_alert",
         "Low stock alert: " ++ p.name ++ " (" ++ pid ++ ") - Only " ++
           toString (p.stock + q) ++ " units remaining",
         "admin@company.com", "sent"⟩ :: store := by
  have h0 : ¬ p.stock + q < 0 := by omega
  refine ⟨.lowStock pid p.name (p.stock + q), ?_, rfl⟩
  have hA : stockAlert pid p.name (p.stock + q) =
      some (.lowStock pid p.name (p.stock + q)) := by
    unfold stockAlert
    rw [if_pos ⟨h2, h1⟩]
  rw [update_stock_found true db pid q p h h0]
  simpa using hA

/-- C9 witness: the theorem applied at the initial table, product
prod001 (Laptop, stock 50) with delta -45: the published alert
carries remaining stock 5 and dispatching it persists the rendered
text with exactly those values. -/
theorem low_stock_alert_roundtrip_witness :
    ∃ msg, (update_stock true initialProducts "prod001" (-45)).published =
        some msg ∧
      process_notification msg "n1" [] =
        [⟨"n1", "low_stock_alert",
          "Low stock alert: " ++ "Laptop" ++ " (" ++ "prod001" ++
            ") - Only " ++ toString ((50 : Int) + -45) ++
            " units remaining",
          "admin@company.com", "sent"⟩] :=
  low_stock_alert_roundtrip initialProducts "prod001" (-45)
    ⟨"prod001", "Laptop", 999.99, 50, "Electronics"⟩ "n1" []
    rfl (by decide) (by decide)

/-- The notification lookup inside DELETE /notifications/(id): the
first stored entry whose notification_id matches. -/
def findNotif (store : List StoredNotif) (nid : String) :
    Option StoredNotif :=
  store.find? (fun n => n.notification_id == nid)

/-- Redis lrem with count 1: remove the first entry equal to the
given value. -/
def removeFirst : List StoredNotif → StoredNotif → List StoredNotif
  | [], _ => []
  | x :: rest, n => if x == n then rest else x :: removeFirst rest n

/-- The body of the try block of delete_notification
(src/notification-service/main.py lines 323-338): scan for the first
entry with the requested id; when found, remove it via lrem count 1
and return it with the updated list; otherwise raise HTTPException
404. -/
def delete_notification_try (store : List StoredNotif) (nid : String) :
    Except Nat (List StoredNotif × StoredNotif) :=
  match findNotif store nid with
  | some n => .ok (removeFirst store n, n)
  | none => .error 404

/-- DELETE /notifications/(id) (src/notification-service/main.py
lines 320-341). The except clause catches every exception — including
the HTTPException 404 raised inside the try block for an unknown
id — and re-raises HTTPException 500, so the 404 can never reach the
client. -/
def delete_notification (store : List StoredNotif) (nid : String) :
    Except Nat (List StoredNotif × StoredNotif) :=
  match delete_notification_try store nid with
  | .ok r => .ok r
  | .error _ => .error 500

/-- C4 failing input: deleting the id n2, absent from a store holding
only n1, answers the server error 500 (the catch-all except swallows
the intended 404), not the NotFound client error the claim states.
The present-id half behaves as claimed: deleting n1 removes exactly
that first matching entry and returns it. -/
theorem delete_unknown_id_returns_500 :
    delete_notification
        [⟨"n1", "test", "hello", "bob@example.com", "sent"⟩] "n2" =
      .error 500 ∧
    delete_notification
        [⟨"n1", "test", "hello", "bob@example.com", "sent"⟩] "n1" =
      .ok ([], ⟨"n1", "test", "hello", "bob@example.com", "sent"⟩) := by
  exact ⟨rfl, rfl⟩

/-- One step of the per-type counting loop of
get_notification_stats: the Python dict update
type_counts[t] = type_counts.get(t, 0) + 1 on a dict in insertion
order. -/
def incrTypeCount : List (String × Nat) → String → List (String × Nat)
  | [], t => [(t, 1)]
  | (s, k) :: rest, t =>
      if s == t then (s, k + 1) :: rest else (s, k) :: incrTypeCount rest t

/-- The counting loop of get_notification_stats
(src/notification-service/main.py lines 280-283). -/
def countByType (store : List StoredNotif) : List (String × Nat) :=
  store.foldl (fun acc n => incrTypeCount acc n.type) []

/-- The response of GET /notifications/stats. -/
structure StatsResult where
  total_notifications : Nat
  notifications_by_type : List (String × Nat)
  last_notification : Option StoredNotif
deriving DecidableEq

/-- GET /notifications/stats (src/notification-service/main.py lines
262-296): the total count, the counts per type, and the most recent
notification — index 0 of the stored list, None when it is empty. -/
def get_notification_stats (store : List StoredNotif) : StatsResult :=
  ⟨store.length, countByType store, store.head?⟩

theorem incrTypeCount_sum :
    ∀ (acc : List (String × Nat)) (t : String),
      ((incrTypeCount acc t).map Prod.snd).sum =
        (acc.map Prod.snd).sum + 1 := by
  intro acc
  induction acc with
  | nil => intro t; simp [incrTypeCount]
  | cons c rest ih =>
      intro t
      obtain ⟨s, k⟩ := c
      cases hst : (s == t)
      · simp [incrTypeCount, hst, ih t]
        omega
      · simp [incrTypeCount, hst]
        omega

theorem countByType_sum_aux (store : List StoredNotif) :
    ∀ acc : List (String × Nat),
      ((store.foldl (fun a n => incrTypeCount a n.type) acc).map
        Prod.snd).sum = (acc.map Prod.snd).sum + store.length := by
  induction store with
  | nil => intro acc; simp
  | cons n rest ih =>
      intro acc
      simp only [List.foldl_cons, List.length_cons]
      rw [ih (incrTypeCount acc n.type), incrTypeCount_sum]
      omega

/-- C10. For every stored notification list, the stats endpoint
reports a total equal to the sum of the per-type counts, and reports
as last notification the head of the stored list — the most recently
prepended entry — or None when the list is empty. -/
theorem notification_stats (store : List StoredNotif) :
    (get_notification_stats store).total_notifications =
      (((get_notification_stats store).notifications_by_type).map
        Prod.snd).sum ∧
    (get_notification_stats store).last_notification = store.head? := by
  refine ⟨?_, rfl⟩
  show store.length = ((countByType store).map Prod.snd).sum
  rw [countByType, countByType_sum_aux store []]
  simp

end CloudNative
